import Mathlib

/-!
Shallow embedding of the checkout-session lifecycle engine of the
ACP-Checkout-Gateway repository, together with theorems settling the
frozen claims about it.

Sources embedded:
- src/ACP-Checkout-Gateway/src/model/checkoutSession.ts (session aggregate)
- src/ACP-Checkout-Gateway/src/repository.ts (event store, idempotency index)
- src/ACP-Checkout-Gateway/src/controllers/checkoutController.ts (service)
- src/unnamed/part_010 (RequestMetadata) and part_009 (header propagation
  middleware, installed in the app before the routes in part_007)

Modelling conventions: DynamoDB tables become in-memory lists; the
version-sorted query (ScanIndexForward) becomes an insertion sort by
version; crypto.randomUUID() becomes an injective function of a
freshness counter carried in the store state; the asynchronous webhook
dispatch and the merchant-data fetch are recorded as effects in an
effect list instead of performing I/O.
-/

namespace ACP

/-- Session status enum from the ACP schema. -/
inductive Status where
  | not_ready_for_payment
  | ready_for_payment
  | completed
  | canceled
deriving DecidableEq, Repr

/-- Fulfillment option discriminator (`shipping` or `digital` variant). -/
inductive FulfillmentType where
  | shipping
  | digital
deriving DecidableEq, Repr

/-- An item requested by the client: product id and quantity. -/
structure Item where
  id : String
  quantity : Nat
deriving DecidableEq, Repr

/-- A line item as returned by the merchant capability. -/
structure LineItem where
  id : String
  item : Item
  base_amount : Int
  discount : Int
  subtotal : Int
  tax : Int
  total : Int
deriving DecidableEq, Repr

/-- A delivery address; the engine only ever tests its presence. -/
structure Address where
  line_one : String
deriving DecidableEq, Repr

structure FulfillmentDetails where
  address : Option Address
deriving DecidableEq, Repr

/-- A fulfillment option; the engine reads its type tag, id and total.
In the TypeScript source this is a union of a shipping and a digital
variant; both carry `id` and `total`. -/
structure FulfillmentOption where
  ftype : FulfillmentType
  id : String
  total : Int
deriving DecidableEq, Repr

/-- A selected fulfillment option. In the source the option id and item
ids live in a payload keyed by the type tag (`sel.shipping` or
`sel.digital`); the extraction
`sel.shipping?.option_id || sel.digital?.option_id` is modelled by the
`option_id` field. -/
structure SelectedFulfillmentOption where
  ftype : FulfillmentType
  option_id : String
  item_ids : List String
deriving DecidableEq, Repr

structure Buyer where
  first_name : String
  email : String
deriving DecidableEq, Repr

inductive TotalType where
  | items_base_amount
  | items_discount
  | subtotal
  | tax
  | total
deriving DecidableEq, Repr

structure Total where
  ttype : TotalType
  display_text : String
  amount : Int
deriving DecidableEq, Repr

structure Message where
  content : String
deriving DecidableEq, Repr

structure Link where
  ltype : String
  url : String
deriving DecidableEq, Repr

structure Order where
  id : String
  checkout_session_id : String
  permalink_url : String
deriving DecidableEq, Repr

/-- The checkout session snapshot (CheckoutSession of the schema); the
`order` field is `some` exactly on the CheckoutSessionWithOrder variant
produced by completion. -/
structure SessionState where
  id : String
  status : Status
  currency : String
  line_items : List LineItem
  totals : List Total
  buyer : Option Buyer
  fulfillment_details : Option FulfillmentDetails
  fulfillment_options : List FulfillmentOption
  selected_fulfillment_options : List SelectedFulfillmentOption
  messages : List Message
  links : List Link
  order : Option Order
deriving DecidableEq, Repr

/-- Merchant data returned by the merchant capability
(src/unnamed/part_011). `line_items` and `fulfillment_options` are
required arrays, `messages` is optional. -/
structure MerchantData where
  line_items : List LineItem
  messages : Option (List Message)
  fulfillment_options : List FulfillmentOption
deriving DecidableEq, Repr

/-- CheckoutSession.new: the initial snapshot. The three link URLs come
from environment variables that default to the empty string. -/
def sessionNew (sessionId : String) : SessionState :=
  { id := sessionId
    status := Status.not_ready_for_payment
    currency := "usd"
    line_items := []
    totals := []
    buyer := none
    fulfillment_details := none
    fulfillment_options := []
    selected_fulfillment_options := []
    messages := []
    links := [⟨"terms_of_use", ""⟩, ⟨"privacy_policy", ""⟩, ⟨"return_policy", ""⟩]
    order := none }

namespace CheckoutSession

/-- calculateTotals from checkoutSession.ts: each amount is a reduce
over the line items; the discount is negated in the output. -/
def calculateTotals (lineItems : List LineItem) : List Total :=
  let items_base_amount := lineItems.foldl (fun sum item => sum + item.base_amount) 0
  let items_discount := lineItems.foldl (fun sum item => sum + item.discount) 0
  let subtotal := lineItems.foldl (fun sum item => sum + item.subtotal) 0
  let tax := lineItems.foldl (fun sum item => sum + item.tax) 0
  let total := lineItems.foldl (fun sum item => sum + item.total) 0
  [ ⟨TotalType.items_base_amount, "Items Base Amount", items_base_amount⟩,
    ⟨TotalType.items_discount, "Discount", -items_discount⟩,
    ⟨TotalType.subtotal, "Subtotal", subtotal⟩,
    ⟨TotalType.tax, "Tax", tax⟩,
    ⟨TotalType.total, "Total", total⟩ ]

/-- The `fulfillment_details?.address !== undefined` test. -/
def hasAddress (s : SessionState) : Bool :=
  match s.fulfillment_details with
  | some fd => fd.address.isSome
  | none => false

/-- isReadyForPayment from checkoutSession.ts. -/
def isReadyForPayment (s : SessionState) : Bool :=
  decide (0 < s.line_items.length) &&
  decide (0 < s.fulfillment_options.length) &&
  decide (0 < s.selected_fulfillment_options.length) &&
  hasAddress s &&
  s.buyer.isSome &&
  !(s.status == Status.completed) &&
  !(s.status == Status.canceled)

/-- isNotReadyForPayment from checkoutSession.ts. -/
def isNotReadyForPayment (s : SessionState) : Bool :=
  (decide (s.line_items.length = 0) ||
   decide (s.fulfillment_options.length = 0) ||
   !(decide (0 < s.selected_fulfillment_options.length)) ||
   !(hasAddress s) ||
   !(s.buyer.isSome)) &&
  !(s.status == Status.completed) &&
  !(s.status == Status.canceled)

/-- updateStatus from checkoutSession.ts: recompute the status after a
field mutation; leave it alone when neither predicate fires (the two
terminal states). -/
def updateStatus (s : SessionState) : SessionState :=
  if isReadyForPayment s then { s with status := Status.ready_for_payment }
  else if isNotReadyForPayment s then { s with status := Status.not_ready_for_payment }
  else s

def setLineItems (s : SessionState) (lineItems : List LineItem) : SessionState :=
  updateStatus { s with line_items := lineItems, totals := calculateTotals lineItems }

/-- The option id named by a selection (see SelectedFulfillmentOption). -/
def selOptionId (sel : SelectedFulfillmentOption) : String := sel.option_id

/-- The reduce body of the cheapest-option auto-selection. -/
def cheaperOf (prev curr : FulfillmentOption) : FulfillmentOption :=
  if prev.total < curr.total then prev else curr

/-- setFulfillmentOptions from checkoutSession.ts: store the options;
on an empty list clear the selection; otherwise, when the current
selection is absent or references a now-missing option id, auto-select
the single cheapest option (a reduce over the whole list seeded with
its head) assigned to all line items. -/
def setFulfillmentOptions (s : SessionState) (options : List FulfillmentOption) : SessionState :=
  let s := { s with fulfillment_options := options }
  match options with
  | [] => updateStatus { s with selected_fulfillment_options := [] }
  | o :: rest =>
    let currentSelections := s.selected_fulfillment_options
    let validSelection :=
      decide (0 < currentSelections.length) &&
      currentSelections.all (fun sel => (o :: rest).any (fun o2 => o2.id == selOptionId sel))
    if !validSelection then
      let cheapestOption := (o :: rest).foldl cheaperOf o
      let allItemIds := s.line_items.map (fun li => li.item.id)
      updateStatus { s with selected_fulfillment_options :=
        [⟨cheapestOption.ftype, cheapestOption.id, allItemIds⟩] }
    else
      updateStatus s

/-- setSelectedFulfillmentOptions from checkoutSession.ts: keep only
the selections whose option id exists among the available options;
install them only when at least one survives. -/
def setSelectedFulfillmentOptions (s : SessionState)
    (selections : List SelectedFulfillmentOption) : SessionState :=
  let validSelections :=
    selections.filter (fun sel => s.fulfillment_options.any (fun o => o.id == selOptionId sel))
  let s :=
    if 0 < validSelections.length then
      { s with selected_fulfillment_options := validSelections }
    else s
  updateStatus s

def setBuyer (s : SessionState) (buyer : Buyer) : SessionState :=
  updateStatus { s with buyer := some buyer }

def setFulfillmentDetails (s : SessionState) (details : FulfillmentDetails) : SessionState :=
  updateStatus { s with fulfillment_details := some details }

def setMessages (s : SessionState) (messages : List Message) : SessionState :=
  { s with messages := messages }

/-- The `if (x) { this.setX(x) }` guard pattern of update and
setMerchantData: apply the mutator only when the value is present. -/
def applyOpt {α : Type} (o : Option α) (f : SessionState → α → SessionState)
    (s : SessionState) : SessionState :=
  match o with
  | some a => f s a
  | none => s

/-- setMerchantData from checkoutSession.ts. The source guards each
field with a truthiness test; `line_items` and `fulfillment_options`
are required arrays and an array is truthy in JavaScript even when
empty, so those two branches always run; `messages` is optional. -/
def setMerchantData (s : SessionState) (data : MerchantData) : SessionState :=
  applyOpt data.messages (fun s ms => setMessages s ms)
    (setFulfillmentOptions (setLineItems s data.line_items) data.fulfillment_options)

/-- update from checkoutSession.ts: apply each supplied part in order. -/
def update (s : SessionState) (merchantData : Option MerchantData)
    (buyer : Option Buyer) (fulfillmentDetails : Option FulfillmentDetails)
    (selectedFulfillmentOptions : Option (List SelectedFulfillmentOption)) : SessionState :=
  applyOpt selectedFulfillmentOptions setSelectedFulfillmentOptions
    (applyOpt fulfillmentDetails setFulfillmentDetails
      (applyOpt buyer setBuyer
        (applyOpt merchantData setMerchantData s)))

def canBeCompleted (s : SessionState) : Bool :=
  s.status == Status.ready_for_payment

/-- complete from checkoutSession.ts: only from ready_for_payment;
sets the status and attaches the order. -/
def complete (s : SessionState) (order : Order) : SessionState :=
  if canBeCompleted s then
    { s with status := Status.completed, order := some order }
  else s

def canBeCanceled (s : SessionState) : Bool :=
  !(s.status == Status.completed) && !(s.status == Status.canceled)

def cancel (s : SessionState) : SessionState :=
  if canBeCanceled s then { s with status := Status.canceled } else s

end CheckoutSession

/-! ## Event store and idempotency index (repository.ts)

The DynamoDB versions table becomes a list of records keyed by
(session id, version); the idempotency table becomes an association
list. `crypto.randomUUID()` is modelled as an injective function of a
freshness counter carried in the store. -/

/-- The transition reason enum (src/model/eventTypes is referenced by
the controller but its file is outside src; the four values are the
ones the controller uses, matching the created/updated/completed/
canceled reasons of the spec). -/
inductive EventType where
  | created
  | updated
  | completed
  | canceled
deriving DecidableEq, Repr

/-- One row of the session-history table: the keys, the causing
idempotency key, the transition reason and the snapshot. -/
structure HistItem where
  sessionId : String
  version : Nat
  idemKey : String
  reason : EventType
  data : SessionState
deriving DecidableEq, Repr

/-- The persistent state: versions table, idempotency table, plus the
freshness counter backing the UUID model. -/
structure Store where
  history : List HistItem
  idemIndex : List (String × String)
  nextUuid : Nat
deriving DecidableEq, Repr

/-- Model of crypto.randomUUID(): an injective, never-empty function of
the freshness counter. -/
def freshUuid (n : Nat) : String :=
  String.mk (List.replicate (n + 1) 'u')

/-- SessionHistory from repository.ts: versions in ascending version
order, the replay map from idempotency key to snapshot (later versions
override earlier ones, as Map.set does over the sorted query result),
and the running maximum version. -/
structure SessionHistory where
  sessionId : String
  versions : List (Nat × SessionState)
  pastResponses : List (String × SessionState)
  latestVersion : Nat
deriving DecidableEq, Repr

/-- Map.set on the replay map: override an existing key in place, else
append. -/
def pastSet (m : List (String × SessionState)) (k : String) (v : SessionState) :
    List (String × SessionState) :=
  if m.any (fun p => p.1 == k) then
    m.map (fun p => if p.1 == k then (k, v) else p)
  else m ++ [(k, v)]

/-- Map.get on the replay map. -/
def pastGet (m : List (String × SessionState)) (k : String) : Option SessionState :=
  (m.find? (fun p => p.1 == k)).map (fun p => p.2)

/-- Insert a row into a version-sorted list. -/
def insertByVersion (x : HistItem) : List HistItem → List HistItem
  | [] => [x]
  | y :: ys =>
    if x.version ≤ y.version then x :: y :: ys
    else y :: insertByVersion x ys

/-- The version-ascending order of the DynamoDB query
(ScanIndexForward: true) as an insertion sort. -/
def sortByVersion : List HistItem → List HistItem
  | [] => []
  | x :: xs => insertByVersion x (sortByVersion xs)

/-- The body of getSessionHistory's loop over the sorted query result:
collect the version, extend the replay map, track the maximum
version. -/
def historyStep (h : SessionHistory) (it : HistItem) : SessionHistory :=
  { h with
    versions := h.versions ++ [(it.version, it.data)]
    pastResponses := pastSet h.pastResponses it.idemKey it.data
    latestVersion := if h.latestVersion < it.version then it.version else h.latestVersion }

/-- The loop of getSessionHistory over the sorted query result. -/
def buildHistory (sid : String) (items : List HistItem) : SessionHistory :=
  items.foldl historyStep ⟨sid, [], [], 0⟩

/-- The rows of one session. -/
def itemsOf (st : Store) (sid : String) : List HistItem :=
  st.history.filter (fun it => it.sessionId == sid)

/-- getSessionHistory from repository.ts. -/
def getSessionHistory (st : Store) (sid : String) : SessionHistory :=
  buildHistory sid (sortByVersion (itemsOf st sid))

/-- SessionHistory.latest: the snapshot of the highest version, or a
fresh aggregate when no version exists. The source indexes the map
with a non-null assertion; the fallback arm is unreachable for
histories built by getSessionHistory. -/
def SessionHistory.latest (h : SessionHistory) : SessionState :=
  if h.latestVersion = 0 then sessionNew h.sessionId
  else
    match h.versions.find? (fun p => p.1 == h.latestVersion) with
    | some p => p.2
    | none => sessionNew h.sessionId

/-- SessionHistory.nextVersion. -/
def SessionHistory.nextVersion (h : SessionHistory) : Nat :=
  h.latestVersion + 1

/-- Does a row with this (session id, version) pair exist? This is the
condition of saveSession's conditional write. -/
def hasVersion (st : Store) (sid : String) (v : Nat) : Bool :=
  st.history.any (fun it => it.sessionId == sid && it.version == v)

/-- saveSession's conditional PutCommand: fail (none) when the
(session id, version) pair already exists, else append the row. -/
def appendVersion (st : Store) (it : HistItem) : Option Store :=
  if hasVersion st it.sessionId it.version then none
  else some { st with history := st.history ++ [it] }

/-- GetCommand on the idempotency table. -/
def lookupIdem (st : Store) (k : String) : Option String :=
  (st.idemIndex.find? (fun p => p.1 == k)).map (fun p => p.2)

/-- getSessionByIdempotencyKey from repository.ts: return the history
of the mapped session when the key is known; otherwise mint a fresh
session id, persist the mapping (setSessionId's conditional insert
cannot conflict here because the key was just seen absent), and return
an empty history. -/
def resolveIdempotency (st : Store) (k : String) : SessionHistory × Store :=
  match lookupIdem st k with
  | some sid => (getSessionHistory st sid, st)
  | none =>
    let sid := freshUuid st.nextUuid
    let st' : Store :=
      { history := st.history
        idemIndex := (k, sid) :: st.idemIndex
        nextUuid := st.nextUuid + 1 }
    (⟨sid, [], [], 0⟩, st')

/-! ## Session Service (checkoutController.ts) -/

/-- Request metadata (src/unnamed/part_010): the idempotency key and
request id read from the headers, defaulting to the empty string. -/
structure RequestMetadata where
  idempotencyKey : String
  requestId : String
deriving DecidableEq, Repr

/-- The injected merchant capability (getMerchantData, createOrder). -/
structure MerchantService where
  getMerchantData : List Item → Option FulfillmentDetails → MerchantData
  createOrder : SessionState → Order

structure CreateRequest where
  items : Option (List Item)
  buyer : Option Buyer
  fulfillment_details : Option FulfillmentDetails
deriving DecidableEq, Repr

structure UpdateRequest where
  items : Option (List Item)
  buyer : Option Buyer
  fulfillment_details : Option FulfillmentDetails
  selected_fulfillment_options : Option (List SelectedFulfillmentOption)
deriving DecidableEq, Repr

/-- Payment data is only ever tested for presence. -/
structure PaymentData where
  token : String
deriving DecidableEq, Repr

structure CompleteRequest where
  buyer : Option Buyer
  payment_data : Option PaymentData
deriving DecidableEq, Repr

/-- Side effects of a request, recorded instead of performed: the
merchant-data fetch, a webhook dispatch, the order-capability call. -/
inductive Effect where
  | merchantFetch
  | webhook (event : String)
  | orderCreate
deriving DecidableEq, Repr

/-- The HTTP answer: a session body with its status code, or an error
body of the ACP error taxonomy. -/
inductive ApiResponse where
  | session (http : Nat) (state : SessionState)
  | apiError (http : Nat) (etype : String) (code : String)
deriving DecidableEq, Repr

/-- Outcome of one service operation. -/
structure StepResult where
  response : ApiResponse
  store : Store
  effects : List Effect
deriving DecidableEq, Repr

/-- tryGetExistingResponse from checkoutController.ts: an empty key
never replays; otherwise answer 201 with the snapshot recorded for the
key, if any. -/
def tryGetExistingResponse (h : SessionHistory) (meta : RequestMetadata) :
    Option SessionState :=
  if meta.idempotencyKey = "" then none
  else pastGet h.pastResponses meta.idempotencyKey

/-- The `body.items ? await merchantService.getMerchantData(...) :
undefined` step, with its fetch recorded as an effect. -/
def fetchMerchant (M : MerchantService) (items : Option (List Item))
    (fd : Option FulfillmentDetails) : Option MerchantData × List Effect :=
  match items with
  | some l => (some (M.getMerchantData l fd), [Effect.merchantFetch])
  | none => (none, [])

/-- The aggregate produced by the create path: the latest snapshot of
the resolved history, mutated with the fetched merchant data and the
supplied buyer and fulfillment details. -/
def createAggregated (M : MerchantService) (h : SessionHistory)
    (req : CreateRequest) : SessionState :=
  CheckoutSession.update h.latest (fetchMerchant M req.items req.fulfillment_details).1
    req.buyer req.fulfillment_details none

/-- The body of createCheckoutSession after the idempotency resolve
(checkoutController.ts lines 44-65). The history `h` is the one read
at line 41; passing it separately from the store models a concurrent
writer acting between that read and the conditional write. A failed
conditional write raises, and the surrounding catch answers 500 with
type invalid_request, code session_creation_failed, without retrying. -/
def createCore (M : MerchantService) (st : Store) (h : SessionHistory)
    (req : CreateRequest) (meta : RequestMetadata) : StepResult :=
  match tryGetExistingResponse h meta with
  | some state => ⟨ApiResponse.session 201 state, st, []⟩
  | none =>
    let fetched := fetchMerchant M req.items req.fulfillment_details
    let session := createAggregated M h req
    match appendVersion st ⟨session.id, h.nextVersion, meta.idempotencyKey,
        EventType.created, session⟩ with
    | some st' =>
      ⟨ApiResponse.session 201 session, st',
        fetched.2 ++ [Effect.webhook "checkout.session.created"]⟩
    | none =>
      ⟨ApiResponse.apiError 500 "invalid_request" "session_creation_failed", st, fetched.2⟩

/-- The header-propagation middleware (src/unnamed/part_009), which
runs before every route: a missing or empty Idempotency-Key header is
replaced by a freshly generated UUID. -/
def propagateIdempotencyKey (raw : Option String) (st : Store) : String × Store :=
  match raw with
  | some k =>
    if k = "" then (freshUuid st.nextUuid, { st with nextUuid := st.nextUuid + 1 })
    else (k, st)
  | none => (freshUuid st.nextUuid, { st with nextUuid := st.nextUuid + 1 })

/-- createCheckoutSession, middleware included: propagate the
idempotency key, resolve it to a session history, then run the create
body. -/
def createCheckoutSession (M : MerchantService) (st : Store) (rawKey : Option String)
    (requestId : String) (req : CreateRequest) : StepResult :=
  let pk := propagateIdempotencyKey rawKey st
  let meta : RequestMetadata := ⟨pk.1, requestId⟩
  let rs := resolveIdempotency pk.2 meta.idempotencyKey
  createCore M rs.2 rs.1 req meta

/-- updateCheckoutSession from checkoutController.ts: replay check
first, then the not-found check, then mutate and append. A conflicting
append answers 500 invalid_request / session_update_failed via the
catch. -/
def updateCheckoutSession (M : MerchantService) (st : Store) (sid : String)
    (req : UpdateRequest) (meta : RequestMetadata) : StepResult :=
  let h := getSessionHistory st sid
  match tryGetExistingResponse h meta with
  | some state => ⟨ApiResponse.session 201 state, st, []⟩
  | none =>
    if h.latestVersion = 0 then
      ⟨ApiResponse.apiError 404 "invalid_request" "resource_not_found", st, []⟩
    else
      let fetched := fetchMerchant M req.items req.fulfillment_details
      let session := CheckoutSession.update h.latest fetched.1 req.buyer
        req.fulfillment_details req.selected_fulfillment_options
      match appendVersion st ⟨session.id, h.nextVersion, meta.idempotencyKey,
          EventType.updated, session⟩ with
      | some st' =>
        ⟨ApiResponse.session 201 session, st',
          fetched.2 ++ [Effect.webhook "checkout.session.updated"]⟩
      | none =>
        ⟨ApiResponse.apiError 500 "invalid_request" "session_update_failed", st, fetched.2⟩

/-- completeCheckoutSession from checkoutController.ts: the
missing-payment-data check comes first, before the session is even
loaded; then replay, not-found, the canBeCompleted gate, the
synchronous order creation, and the append. -/
def completeCheckoutSession (M : MerchantService) (st : Store) (sid : String)
    (req : CompleteRequest) (meta : RequestMetadata) : StepResult :=
  match req.payment_data with
  | none => ⟨ApiResponse.apiError 400 "invalid_request" "missing_payment_data", st, []⟩
  | some _ =>
    let h := getSessionHistory st sid
    match tryGetExistingResponse h meta with
    | some state => ⟨ApiResponse.session 201 state, st, []⟩
    | none =>
      if h.latestVersion = 0 then
        ⟨ApiResponse.apiError 404 "invalid_request" "resource_not_found", st, []⟩
      else if !(CheckoutSession.canBeCompleted h.latest) then
        ⟨ApiResponse.apiError 400 "invalid_request" "already_completed", st, []⟩
      else
        let session := match req.buyer with
          | some b => CheckoutSession.setBuyer h.latest b
          | none => h.latest
        let order := M.createOrder session
        let session := CheckoutSession.complete session order
        match appendVersion st ⟨session.id, h.nextVersion, meta.idempotencyKey,
            EventType.completed, session⟩ with
        | some st' =>
          ⟨ApiResponse.session 201 session, st',
            [Effect.orderCreate, Effect.webhook "checkout.session.completed",
             Effect.webhook "order.created"]⟩
        | none =>
          ⟨ApiResponse.apiError 500 "processing_error" "completion_failed", st,
            [Effect.orderCreate]⟩

/-- The guard of the cancellation_not_allowed branch as the source
actually evaluates it: checkoutController.ts line 236 reads
`if (!session.canBeCanceled)` without calling the method, so the test
negates a method reference, which is always truthy. -/
def canBeCanceledMethodReference (_session : SessionState) : Bool := true

/-- cancelCheckoutSession from checkoutController.ts: not-found check,
then the (unreachable, see canBeCanceledMethodReference) cancellation
gate, then cancel and append. A conflicting append answers 500
processing_error / cancellation_failed via the catch. -/
def cancelCheckoutSession (st : Store) (sid : String) (meta : RequestMetadata) :
    StepResult :=
  let h := getSessionHistory st sid
  if h.latestVersion = 0 then
    ⟨ApiResponse.apiError 404 "invalid_request" "resource_not_found", st, []⟩
  else if !(canBeCanceledMethodReference h.latest) then
    ⟨ApiResponse.apiError 400 "invalid_request" "cancellation_not_allowed", st, []⟩
  else
    let session := CheckoutSession.cancel h.latest
    match appendVersion st ⟨session.id, h.nextVersion, meta.idempotencyKey,
        EventType.canceled, session⟩ with
    | some st' =>
      ⟨ApiResponse.session 201 session, st',
        [Effect.webhook "checkout.session.cancelled"]⟩
    | none =>
      ⟨ApiResponse.apiError 500 "processing_error" "cancellation_failed", st, []⟩

/-! ## Status machinery -/

/-- The two terminal statuses. -/
def Terminal (st : Status) : Prop :=
  st = Status.completed ∨ st = Status.canceled

instance (st : Status) : Decidable (Terminal st) := by
  unfold Terminal; infer_instance

/-- The five readiness conditions of isReadyForPayment, without the
terminal-status guards. -/
def readyConds (s : SessionState) : Bool :=
  decide (0 < s.line_items.length) &&
  decide (0 < s.fulfillment_options.length) &&
  decide (0 < s.selected_fulfillment_options.length) &&
  CheckoutSession.hasAddress s &&
  s.buyer.isSome

/-- The readiness characterization of a snapshot: its status is
ready_for_payment exactly when the five readiness conditions hold, and
not_ready_for_payment exactly when they do not. -/
def statusSpec (r : SessionState) : Prop :=
  (r.status = Status.ready_for_payment ↔ readyConds r = true) ∧
  (r.status = Status.not_ready_for_payment ↔ readyConds r = false)

/-! ## Freshness and version bookkeeping -/

def idemKeys (st : Store) : List String := st.idemIndex.map Prod.fst

def histSessionIds (st : Store) : List String := st.history.map HistItem.sessionId

/-- Every UUID the store may still generate is unused, both as an
idempotency key and as a session id: the freshness guarantee of
crypto.randomUUID() relative to the current tables. -/
def FreshOK (st : Store) : Prop :=
  ∀ n, st.nextUuid ≤ n → freshUuid n ∉ idemKeys st ∧ freshUuid n ∉ histSessionIds st

/-- The running maximum computed by getSessionHistory's loop. -/
def natListMax (l : List Nat) : Nat :=
  l.foldl (fun a v => if a < v then v else a) 0

/-- The version numbers stored for a session, in the order
getSessionHistory returns them. -/
def sessionVersionNumbers (st : Store) (sid : String) : List Nat :=
  (getSessionHistory st sid).versions.map Prod.fst

/-- The contiguity invariant for one session: no duplicate version
numbers, and the stored numbers are exactly 1..latestVersion. -/
def ContigAt (st : Store) (sid : String) : Prop :=
  (sessionVersionNumbers st sid).Nodup ∧
  ∀ v, v ∈ sessionVersionNumbers st sid ↔
    (1 ≤ v ∧ v ≤ (getSessionHistory st sid).latestVersion)

/-! ## Concrete fixtures used by counterexamples and witnesses -/

def emptyStore : Store := ⟨[], [], 0⟩

/-- A trivial merchant capability for instantiating closed statements. -/
def dummyMerchant : MerchantService :=
  ⟨fun _ _ => ⟨[], none, []⟩,
   fun s => ⟨"order-1", s.id, "https://merchant.example.com/orders/order-1"⟩⟩

/-- A session snapshot already canceled (C1, C6 fixtures). -/
def c1CanceledState : SessionState :=
  { sessionNew "s1" with status := Status.canceled }

/-- A store holding one session whose single version is canceled. -/
def c1Store : Store :=
  ⟨[⟨"s1", 1, "k1", EventType.canceled, c1CanceledState⟩], [("k1", "s1")], 0⟩

def c3LineItem : LineItem := ⟨"line1", ⟨"item1", 1⟩, 100, 0, 100, 0, 100⟩

/-- A session with one line item whose current selection references an
option id that is about to disappear (C3 fixture). -/
def c3State : SessionState :=
  { sessionNew "s3" with
    line_items := [c3LineItem]
    selected_fulfillment_options := [⟨FulfillmentType.shipping, "gone", ["item1"]⟩] }

def c3Shipping : FulfillmentOption := ⟨FulfillmentType.shipping, "optA", 5⟩

def c3Digital : FulfillmentOption := ⟨FulfillmentType.digital, "optB", 3⟩

def c4State1 : SessionState := sessionNew "s4"

/-- A store where versions 1 and 2 of session s4 both exist (C4). -/
def c4Store : Store :=
  ⟨[⟨"s4", 1, "k1", EventType.created, c4State1⟩,
    ⟨"s4", 2, "k2", EventType.updated, c4State1⟩], [("k1", "s4")], 0⟩

/-- The same store as it looked when a slower writer read it: only
version 1 of s4 existed (C4). -/
def c4StaleStore : Store :=
  ⟨[⟨"s4", 1, "k1", EventType.created, c4State1⟩], [("k1", "s4")], 0⟩

/-- A create or replay body carrying no items, buyer or details. -/
def noItemsRequest : CreateRequest := ⟨none, none, none⟩

def c5State : SessionState := sessionNew "s5"

/-- A store with one session created under idempotency key k1 (C5). -/
def c5Store : Store :=
  ⟨[⟨"s5", 1, "k1", EventType.created, c5State⟩], [("k1", "s5")], 5⟩

def c9NoPaymentRequest : CompleteRequest := ⟨none, none⟩

def c9PaidRequest : CompleteRequest := ⟨none, some ⟨"tok"⟩⟩

/-- A terminal snapshot used by the C6 witness. -/
def c6WitnessState : SessionState :=
  { sessionNew "w6" with status := Status.completed }

/-- A session with one available option and a valid selection (C10). -/
def c10State : SessionState :=
  { sessionNew "s10" with
    fulfillment_options := [c3Shipping]
    selected_fulfillment_options := [⟨FulfillmentType.shipping, "optA", ["item1"]⟩] }

/-- A selection list referencing only unknown option ids (C10). -/
def c10Selections : List SelectedFulfillmentOption :=
  [⟨FulfillmentType.digital, "missing", []⟩]

namespace CheckoutSession

theorem isReadyForPayment_of_terminal (s : SessionState) (h : Terminal s.status) :
    isReadyForPayment s = false := by
  rcases h with h | h <;> simp [isReadyForPayment, h]

theorem isNotReadyForPayment_of_terminal (s : SessionState) (h : Terminal s.status) :
    isNotReadyForPayment s = false := by
  rcases h with h | h <;> simp [isNotReadyForPayment, h]

/-- On a terminal snapshot updateStatus is the identity: both
readiness predicates carry the not-terminal guards. -/
theorem updateStatus_of_terminal (s : SessionState) (h : Terminal s.status) :
    updateStatus s = s := by
  simp [updateStatus, isReadyForPayment_of_terminal s h,
    isNotReadyForPayment_of_terminal s h]

theorem setLineItems_status_of_terminal (s : SessionState) (l : List LineItem)
    (h : Terminal s.status) : (setLineItems s l).status = s.status := by
  unfold setLineItems
  rw [updateStatus_of_terminal]
  exact h

theorem setFulfillmentOptions_status_of_terminal (s : SessionState)
    (opts : List FulfillmentOption) (h : Terminal s.status) :
    (setFulfillmentOptions s opts).status = s.status := by
  unfold setFulfillmentOptions
  cases opts with
  | nil =>
    dsimp only
    rw [updateStatus_of_terminal]
    exact h
  | cons o rest =>
    dsimp only
    split
    · rw [updateStatus_of_terminal]
      exact h
    · rw [updateStatus_of_terminal]
      exact h

theorem setSelectedFulfillmentOptions_status_of_terminal (s : SessionState)
    (sels : List SelectedFulfillmentOption) (h : Terminal s.status) :
    (setSelectedFulfillmentOptions s sels).status = s.status := by
  unfold setSelectedFulfillmentOptions
  dsimp only
  split
  · rw [updateStatus_of_terminal]
    exact h
  · rw [updateStatus_of_terminal]
    exact h

theorem setBuyer_status_of_terminal (s : SessionState) (b : Buyer)
    (h : Terminal s.status) : (setBuyer s b).status = s.status := by
  unfold setBuyer
  rw [updateStatus_of_terminal]
  exact h

theorem setFulfillmentDetails_status_of_terminal (s : SessionState)
    (d : FulfillmentDetails) (h : Terminal s.status) :
    (setFulfillmentDetails s d).status = s.status := by
  unfold setFulfillmentDetails
  rw [updateStatus_of_terminal]
  exact h

theorem setMessages_status (s : SessionState) (ms : List Message) :
    (setMessages s ms).status = s.status := rfl

theorem applyOpt_status_of_terminal {α : Type} (o : Option α)
    (f : SessionState → α → SessionState)
    (hf : ∀ s a, Terminal s.status → (f s a).status = s.status)
    (s : SessionState) (h : Terminal s.status) :
    (applyOpt o f s).status = s.status := by
  cases o with
  | some a => exact hf s a h
  | none => rfl

theorem applyOpt_terminal {α : Type} (o : Option α)
    (f : SessionState → α → SessionState)
    (hf : ∀ s a, Terminal s.status → (f s a).status = s.status)
    (s : SessionState) (h : Terminal s.status) :
    Terminal (applyOpt o f s).status := by
  rw [applyOpt_status_of_terminal o f hf s h]; exact h

theorem setMerchantData_status_of_terminal (s : SessionState) (d : MerchantData)
    (h : Terminal s.status) : (setMerchantData s d).status = s.status := by
  unfold setMerchantData
  have h1 : Terminal (setLineItems s d.line_items).status := by
    rw [setLineItems_status_of_terminal s d.line_items h]; exact h
  have h2 : Terminal (setFulfillmentOptions (setLineItems s d.line_items)
      d.fulfillment_options).status := by
    rw [setFulfillmentOptions_status_of_terminal _ _ h1]; exact h1
  rw [applyOpt_status_of_terminal _ _ (fun s0 ms _ => setMessages_status s0 ms) _ h2,
    setFulfillmentOptions_status_of_terminal _ _ h1,
    setLineItems_status_of_terminal _ _ h]

theorem update_status_of_terminal (s : SessionState) (md : Option MerchantData)
    (b : Option Buyer) (fd : Option FulfillmentDetails)
    (sels : Option (List SelectedFulfillmentOption)) (h : Terminal s.status) :
    (update s md b fd sels).status = s.status := by
  unfold update
  have t1 := applyOpt_terminal md setMerchantData
    setMerchantData_status_of_terminal s h
  have t2 := applyOpt_terminal b setBuyer setBuyer_status_of_terminal _ t1
  have t3 := applyOpt_terminal fd setFulfillmentDetails
    setFulfillmentDetails_status_of_terminal _ t2
  rw [applyOpt_status_of_terminal sels setSelectedFulfillmentOptions
      setSelectedFulfillmentOptions_status_of_terminal _ t3,
    applyOpt_status_of_terminal fd setFulfillmentDetails
      setFulfillmentDetails_status_of_terminal _ t2,
    applyOpt_status_of_terminal b setBuyer setBuyer_status_of_terminal _ t1,
    applyOpt_status_of_terminal md setMerchantData
      setMerchantData_status_of_terminal s h]

theorem complete_status_of_terminal (s : SessionState) (o : Order)
    (h : Terminal s.status) : (complete s o).status = s.status := by
  unfold complete canBeCompleted
  rcases h with h | h <;> simp [h]

theorem cancel_status_of_terminal (s : SessionState) (h : Terminal s.status) :
    (cancel s).status = s.status := by
  unfold cancel canBeCanceled
  rcases h with h | h <;> simp [h]

theorem isReadyForPayment_of_not_terminal (s : SessionState)
    (h : ¬ Terminal s.status) : isReadyForPayment s = readyConds s := by
  obtain ⟨hc, hk⟩ := not_or.mp h
  have hbc : (s.status == Status.completed) = false := beq_eq_false_iff_ne.mpr hc
  have hbk : (s.status == Status.canceled) = false := beq_eq_false_iff_ne.mpr hk
  simp [isReadyForPayment, readyConds, hbc, hbk]

theorem isNotReadyForPayment_of_not_terminal (s : SessionState)
    (h : ¬ Terminal s.status) : isNotReadyForPayment s = !readyConds s := by
  obtain ⟨hc, hk⟩ := not_or.mp h
  have hbc : (s.status == Status.completed) = false := beq_eq_false_iff_ne.mpr hc
  have hbk : (s.status == Status.canceled) = false := beq_eq_false_iff_ne.mpr hk
  have ha : decide (s.line_items = []) = !decide (0 < s.line_items.length) := by
    cases s.line_items <;> simp
  have hb : decide (s.fulfillment_options = [])
      = !decide (0 < s.fulfillment_options.length) := by
    cases s.fulfillment_options <;> simp
  simp [isNotReadyForPayment, readyConds, ha, hb, hbc, hbk, Bool.not_and]

theorem updateStatus_status_of_not_terminal (s : SessionState)
    (h : ¬ Terminal s.status) :
    (updateStatus s).status =
      if readyConds s then Status.ready_for_payment
      else Status.not_ready_for_payment := by
  unfold updateStatus
  rw [isReadyForPayment_of_not_terminal s h, isNotReadyForPayment_of_not_terminal s h]
  cases hrc : readyConds s <;> simp [hrc]

/-- readyConds only reads data fields, never the status, so
recomputing the status does not change it. -/
theorem readyConds_updateStatus (s : SessionState) :
    readyConds (updateStatus s) = readyConds s := by
  unfold updateStatus
  split
  · rfl
  split
  · rfl
  · rfl

theorem statusSpec_updateStatus (m : SessionState) (hm : ¬ Terminal m.status) :
    statusSpec (updateStatus m) := by
  have h1 := updateStatus_status_of_not_terminal m hm
  have h2 := readyConds_updateStatus m
  constructor <;> rw [h1, h2] <;> cases hrc : readyConds m <;> simp [hrc]

/-- updateStatus only writes the status field. -/
theorem updateStatus_selected (s : SessionState) :
    (updateStatus s).selected_fulfillment_options = s.selected_fulfillment_options := by
  unfold updateStatus
  split
  · rfl
  split
  · rfl
  · rfl

end CheckoutSession

/-- C6: for every aggregate state whose status is `completed` or
`canceled`, none of update, setLineItems, setFulfillmentOptions,
setSelectedFulfillmentOptions, setBuyer, setFulfillmentDetails,
complete or cancel produces a state with a different status. -/
theorem c6_terminal_status_preserved (s : SessionState) (h : Terminal s.status) :
    (∀ md b fd sels, (CheckoutSession.update s md b fd sels).status = s.status) ∧
    (∀ l, (CheckoutSession.setLineItems s l).status = s.status) ∧
    (∀ opts, (CheckoutSession.setFulfillmentOptions s opts).status = s.status) ∧
    (∀ sels, (CheckoutSession.setSelectedFulfillmentOptions s sels).status = s.status) ∧
    (∀ b, (CheckoutSession.setBuyer s b).status = s.status) ∧
    (∀ d, (CheckoutSession.setFulfillmentDetails s d).status = s.status) ∧
    (∀ o, (CheckoutSession.complete s o).status = s.status) ∧
    (CheckoutSession.cancel s).status = s.status :=
  ⟨fun md b fd sels => CheckoutSession.update_status_of_terminal s md b fd sels h,
   fun l => CheckoutSession.setLineItems_status_of_terminal s l h,
   fun opts => CheckoutSession.setFulfillmentOptions_status_of_terminal s opts h,
   fun sels => CheckoutSession.setSelectedFulfillmentOptions_status_of_terminal s sels h,
   fun b => CheckoutSession.setBuyer_status_of_terminal s b h,
   fun d => CheckoutSession.setFulfillmentDetails_status_of_terminal s d h,
   fun o => CheckoutSession.complete_status_of_terminal s o h,
   CheckoutSession.cancel_status_of_terminal s h⟩

/-- Witness for C6 at a concrete completed snapshot. -/
theorem c6_terminal_status_preserved_witness :
    Terminal c6WitnessState.status ∧
    (CheckoutSession.cancel c6WitnessState).status = c6WitnessState.status :=
  ⟨Or.inl rfl, (c6_terminal_status_preserved c6WitnessState (Or.inl rfl)).2.2.2.2.2.2.2⟩

/-- C8: after any field mutation (setLineItems, setFulfillmentOptions,
setSelectedFulfillmentOptions, setBuyer, setFulfillmentDetails) on a
non-terminal session, the resulting status is ready_for_payment iff
line items, fulfillment options and a selection are present, the
fulfillment details contain an address and a buyer is set; otherwise
it is not_ready_for_payment. -/
theorem c8_status_recomputation (s : SessionState) (h : ¬ Terminal s.status) :
    (∀ l, statusSpec (CheckoutSession.setLineItems s l)) ∧
    (∀ opts, statusSpec (CheckoutSession.setFulfillmentOptions s opts)) ∧
    (∀ sels, statusSpec (CheckoutSession.setSelectedFulfillmentOptions s sels)) ∧
    (∀ b, statusSpec (CheckoutSession.setBuyer s b)) ∧
    (∀ d, statusSpec (CheckoutSession.setFulfillmentDetails s d)) := by
  refine ⟨fun l => ?_, fun opts => ?_, fun sels => ?_, fun b => ?_, fun d => ?_⟩
  · exact CheckoutSession.statusSpec_updateStatus _ h
  · unfold CheckoutSession.setFulfillmentOptions
    cases opts with
    | nil => exact CheckoutSession.statusSpec_updateStatus _ h
    | cons o rest =>
      dsimp only
      split
      · exact CheckoutSession.statusSpec_updateStatus _ h
      · exact CheckoutSession.statusSpec_updateStatus _ h
  · unfold CheckoutSession.setSelectedFulfillmentOptions
    dsimp only
    split
    · exact CheckoutSession.statusSpec_updateStatus _ h
    · exact CheckoutSession.statusSpec_updateStatus _ h
  · exact CheckoutSession.statusSpec_updateStatus _ h
  · exact CheckoutSession.statusSpec_updateStatus _ h

/-- Witness for C8 at a fresh (non-terminal) aggregate. -/
theorem c8_status_recomputation_witness :
    ¬ Terminal (sessionNew "w8").status ∧
    statusSpec (CheckoutSession.setBuyer (sessionNew "w8") ⟨"J", ""⟩) :=
  ⟨by decide,
   (c8_status_recomputation (sessionNew "w8") (by decide)).2.2.2.1 ⟨"J", ""⟩⟩

/-- C10: when no entry of the selection list references an option id
present in the current fulfillment_options, setSelectedFulfillmentOptions
leaves the selected_fulfillment_options field unchanged — the input is
silently ignored and the previous selection is not cleared. -/
theorem c10_invalid_selection_ignored (s : SessionState)
    (sels : List SelectedFulfillmentOption)
    (h : sels.filter (fun sel =>
      s.fulfillment_options.any (fun o => o.id == CheckoutSession.selOptionId sel)) = []) :
    (CheckoutSession.setSelectedFulfillmentOptions s sels).selected_fulfillment_options
      = s.selected_fulfillment_options := by
  unfold CheckoutSession.setSelectedFulfillmentOptions
  dsimp only
  rw [h]
  simp [CheckoutSession.updateStatus_selected]

/-- Witness for C10: a selection naming only unknown option ids leaves
the existing selection in place. -/
theorem c10_invalid_selection_ignored_witness :
    c10Selections.filter (fun sel =>
      c10State.fulfillment_options.any (fun o => o.id == CheckoutSession.selOptionId sel)) = [] ∧
    (CheckoutSession.setSelectedFulfillmentOptions c10State c10Selections).selected_fulfillment_options
      = c10State.selected_fulfillment_options :=
  ⟨by decide, c10_invalid_selection_ignored c10State c10Selections (by decide)⟩

/-! ## C3: cheapest-option auto-selection -/

theorem foldl_cheaperOf_mem (l : List FulfillmentOption) (a : FulfillmentOption) :
    l.foldl CheckoutSession.cheaperOf a = a ∨ l.foldl CheckoutSession.cheaperOf a ∈ l := by
  induction l generalizing a with
  | nil => exact Or.inl rfl
  | cons x xs ih =>
    simp only [List.foldl_cons]
    rcases ih (CheckoutSession.cheaperOf a x) with h | h
    · rw [h]
      unfold CheckoutSession.cheaperOf
      split
      · exact Or.inl rfl
      · exact Or.inr (List.mem_cons_self x xs)
    · exact Or.inr (List.mem_cons_of_mem x h)

theorem foldl_cheaperOf_le_init (l : List FulfillmentOption) (a : FulfillmentOption) :
    (l.foldl CheckoutSession.cheaperOf a).total ≤ a.total := by
  induction l generalizing a with
  | nil => exact le_refl _
  | cons x xs ih =>
    simp only [List.foldl_cons]
    refine le_trans (ih (CheckoutSession.cheaperOf a x)) ?_
    unfold CheckoutSession.cheaperOf
    split
    · exact le_refl _
    · exact le_of_not_lt (by assumption)

theorem foldl_cheaperOf_le_mem (l : List FulfillmentOption) (a : FulfillmentOption) :
    ∀ x ∈ l, (l.foldl CheckoutSession.cheaperOf a).total ≤ x.total := by
  induction l generalizing a with
  | nil => intro x hx; cases hx
  | cons y ys ih =>
    intro x hx
    simp only [List.foldl_cons]
    rcases List.mem_cons.mp hx with rfl | hx
    · refine le_trans (foldl_cheaperOf_le_init ys (CheckoutSession.cheaperOf a x)) ?_
      unfold CheckoutSession.cheaperOf
      split
      · exact le_of_lt (by assumption)
      · exact le_refl _
    · exact ih (CheckoutSession.cheaperOf a y) x hx

/-- C3 counterexample: the auto-selection is not per fulfillment type.
With a stale shipping selection and new options of both types, the
engine selects only the single globally cheapest option (digital optB,
total 3) and produces no shipping-type selection although a shipping
option is present. -/
theorem c3_autoselect_not_per_type_counterexample :
    (∃ sel ∈ c3State.selected_fulfillment_options,
      ∀ o ∈ [c3Shipping, c3Digital], o.id ≠ CheckoutSession.selOptionId sel) ∧
    (∃ o ∈ [c3Shipping, c3Digital], o.ftype = FulfillmentType.shipping) ∧
    (CheckoutSession.setFulfillmentOptions c3State [c3Shipping, c3Digital]).selected_fulfillment_options
      = [⟨FulfillmentType.digital, "optB", ["item1"]⟩] ∧
    ∀ sel ∈ (CheckoutSession.setFulfillmentOptions c3State
        [c3Shipping, c3Digital]).selected_fulfillment_options,
      sel.ftype ≠ FulfillmentType.shipping := by decide

/-- C3 (amended): when setFulfillmentOptions receives a non-empty
option list and the current selection is absent or references a
missing option id, the engine auto-selects the single option with the
lowest total amount across all options (regardless of type; ties go to
the later option), assigned to all line items, rather than leaving the
selection empty. -/
theorem c3_autoselect_global_cheapest (s : SessionState) (o : FulfillmentOption)
    (rest : List FulfillmentOption)
    (hv : (decide (0 < s.selected_fulfillment_options.length) &&
      s.selected_fulfillment_options.all (fun sel =>
        (o :: rest).any (fun o2 => o2.id == CheckoutSession.selOptionId sel))) = false) :
    (CheckoutSession.setFulfillmentOptions s (o :: rest)).selected_fulfillment_options
      = [⟨((o :: rest).foldl CheckoutSession.cheaperOf o).ftype,
          ((o :: rest).foldl CheckoutSession.cheaperOf o).id,
          s.line_items.map (fun li => li.item.id)⟩] ∧
    (o :: rest).foldl CheckoutSession.cheaperOf o ∈ o :: rest ∧
    ∀ o2 ∈ o :: rest, ((o :: rest).foldl CheckoutSession.cheaperOf o).total ≤ o2.total := by
  refine ⟨?_, ?_, foldl_cheaperOf_le_mem (o :: rest) o⟩
  · unfold CheckoutSession.setFulfillmentOptions
    dsimp only
    rw [hv]
    simp [CheckoutSession.updateStatus_selected]
  · rcases foldl_cheaperOf_mem (o :: rest) o with h | h
    · rw [h]; exact List.mem_cons_self o rest
    · exact h

/-- Witness for C3 (amended) at the concrete two-option fixture. -/
theorem c3_autoselect_global_cheapest_witness :
    (decide (0 < c3State.selected_fulfillment_options.length) &&
      c3State.selected_fulfillment_options.all (fun sel =>
        ([c3Shipping, c3Digital]).any (fun o2 =>
          o2.id == CheckoutSession.selOptionId sel))) = false ∧
    (CheckoutSession.setFulfillmentOptions c3State
        [c3Shipping, c3Digital]).selected_fulfillment_options
      = [⟨(([c3Shipping, c3Digital]).foldl CheckoutSession.cheaperOf c3Shipping).ftype,
          (([c3Shipping, c3Digital]).foldl CheckoutSession.cheaperOf c3Shipping).id,
          c3State.line_items.map (fun li => li.item.id)⟩] :=
  ⟨by decide,
   (c3_autoselect_global_cheapest c3State c3Shipping [c3Digital] (by decide)).1⟩

/-- C1: contrary to the claim, a cancel request on a session whose
latest version is already canceled does NOT answer
cancellation_not_allowed: because line 236 of the controller tests the
method reference `session.canBeCanceled` instead of calling it, the
error branch is unreachable, the request answers 201 with the
unchanged snapshot, and a new version is appended (latestVersion goes
from 1 to 2). -/
theorem c1_cancel_on_canceled_appends :
    (cancelCheckoutSession c1Store "s1" ⟨"k2", "r2"⟩).response
      = ApiResponse.session 201 c1CanceledState ∧
    (cancelCheckoutSession c1Store "s1" ⟨"k2", "r2"⟩).response
      ≠ ApiResponse.apiError 400 "invalid_request" "cancellation_not_allowed" ∧
    (cancelCheckoutSession c1Store "s1" ⟨"k2", "r2"⟩).store.history.length = 2 ∧
    (getSessionHistory (cancelCheckoutSession c1Store "s1" ⟨"k2", "r2"⟩).store
        "s1").latestVersion = 2 := by decide

/-! ## C9: complete on an unknown session -/

/-- C9 counterexample: a complete request without payment data on a
session id with no stored versions answers missing_payment_data, not
resource_not_found — the payment check runs before the session is
loaded, so the claim fails for bodies without payment data. -/
theorem c9_missing_payment_first_counterexample :
    (completeCheckoutSession dummyMerchant emptyStore "ghost" c9NoPaymentRequest
        ⟨"k", "r"⟩).response
      = ApiResponse.apiError 400 "invalid_request" "missing_payment_data" ∧
    (completeCheckoutSession dummyMerchant emptyStore "ghost" c9NoPaymentRequest
        ⟨"k", "r"⟩).response
      ≠ ApiResponse.apiError 404 "invalid_request" "resource_not_found" ∧
    itemsOf emptyStore "ghost" = [] := by decide

/-- C9 (amended): a complete request on a session id with no stored
versions answers resource_not_found when payment data is supplied;
when payment data is omitted, missing_payment_data is answered
instead, regardless of the store. Neither path changes the store or
fires an effect. -/
theorem c9_not_found_requires_payment_data :
    (∀ (M : MerchantService) (st : Store) (sid : String) (req : CompleteRequest)
        (meta : RequestMetadata) (pd : PaymentData),
      req.payment_data = some pd → itemsOf st sid = [] →
      completeCheckoutSession M st sid req meta
        = ⟨ApiResponse.apiError 404 "invalid_request" "resource_not_found", st, []⟩) ∧
    (∀ (M : MerchantService) (st : Store) (sid : String) (b : Option Buyer)
        (meta : RequestMetadata),
      completeCheckoutSession M st sid ⟨b, none⟩ meta
        = ⟨ApiResponse.apiError 400 "invalid_request" "missing_payment_data", st, []⟩) := by
  constructor
  · intro M st sid req meta pd hp hs
    simp [completeCheckoutSession, hp, getSessionHistory, hs, sortByVersion,
      buildHistory, tryGetExistingResponse, pastGet, SessionHistory.latest]
  · intro M st sid b meta
    simp [completeCheckoutSession]

/-- Witness for C9 (amended) at a concrete empty store. -/
theorem c9_not_found_requires_payment_data_witness :
    c9PaidRequest.payment_data = some ⟨"tok"⟩ ∧
    itemsOf emptyStore "ghost" = [] ∧
    completeCheckoutSession dummyMerchant emptyStore "ghost" c9PaidRequest ⟨"k", "r"⟩
      = ⟨ApiResponse.apiError 404 "invalid_request" "resource_not_found", emptyStore, []⟩ :=
  ⟨rfl, rfl,
   c9_not_found_requires_payment_data.1 dummyMerchant emptyStore "ghost" c9PaidRequest
     ⟨"k", "r"⟩ ⟨"tok"⟩ rfl rfl⟩

/-! ## C5: idempotency replay -/

/-- C5: replaying create (key resolving through the idempotency index)
or update (session id in the path) with an idempotency key recorded on
a stored version answers 201 with the previously stored snapshot,
leaves the store untouched (so latestVersion is unchanged), and
performs no merchant fetch, webhook or append. -/
theorem c5_idempotent_replay :
    (∀ (M : MerchantService) (st : Store) (rid : String) (req : CreateRequest)
        (k sid : String) (prior : SessionState),
      k ≠ "" → lookupIdem st k = some sid →
      pastGet (getSessionHistory st sid).pastResponses k = some prior →
      createCheckoutSession M st (some k) rid req
        = ⟨ApiResponse.session 201 prior, st, []⟩) ∧
    (∀ (M : MerchantService) (st : Store) (sid : String) (req : UpdateRequest)
        (meta : RequestMetadata) (prior : SessionState),
      meta.idempotencyKey ≠ "" →
      pastGet (getSessionHistory st sid).pastResponses meta.idempotencyKey = some prior →
      updateCheckoutSession M st sid req meta
        = ⟨ApiResponse.session 201 prior, st, []⟩) := by
  constructor
  · intro M st rid req k sid prior hk hl hp
    simp [createCheckoutSession, propagateIdempotencyKey, resolveIdempotency,
      createCore, tryGetExistingResponse, hk, hl, hp]
  · intro M st sid req meta prior hk hp
    simp [updateCheckoutSession, tryGetExistingResponse, hk, hp]

/-- Witness for C5 at a concrete store holding one version recorded
under key k1. -/
theorem c5_idempotent_replay_witness :
    ("k1" : String) ≠ "" ∧
    lookupIdem c5Store "k1" = some "s5" ∧
    pastGet (getSessionHistory c5Store "s5").pastResponses "k1" = some c5State ∧
    createCheckoutSession dummyMerchant c5Store (some "k1") "r" noItemsRequest
      = ⟨ApiResponse.session 201 c5State, c5Store, []⟩ :=
  ⟨by decide, by decide, by decide,
   c5_idempotent_replay.1 dummyMerchant c5Store "r" noItemsRequest "k1" "s5" c5State
     (by decide) (by decide) (by decide)⟩

/-! ## C4: conflicting appends are not retried -/

/-- C4 counterexample: with versions 1 and 2 of session s4 stored and
a create body whose history was read when only version 1 existed
(latestVersion 1, nextVersion 2), the service answers 500 with type
invalid_request and code session_creation_failed on the first
conflict, appends nothing — although a single re-read would have found
version 3 free, so a retrying implementation would have succeeded —
and reports a client-error type, not a processing error. -/
theorem c4_conflict_no_retry_counterexample :
    createCore dummyMerchant c4Store (getSessionHistory c4StaleStore "s4")
        noItemsRequest ⟨"k9", "r9"⟩
      = ⟨ApiResponse.apiError 500 "invalid_request" "session_creation_failed",
         c4Store, []⟩ ∧
    (getSessionHistory c4StaleStore "s4").nextVersion = 2 ∧
    hasVersion c4Store "s4" 2 = true ∧
    (appendVersion c4Store ⟨"s4", 3, "k9", EventType.created,
        createAggregated dummyMerchant (getSessionHistory c4Store "s4")
          noItemsRequest⟩).isSome = true := by decide

/-- C4 (amended): when the conditional append of the create path hits
an existing (session id, version) pair, the service does not retry: it
immediately answers 500 with type invalid_request and code
session_creation_failed, leaves the store unchanged, and fires no
webhook. -/
theorem c4_conflict_immediate_client_error (M : MerchantService) (st : Store)
    (h : SessionHistory) (req : CreateRequest) (meta : RequestMetadata)
    (hrep : tryGetExistingResponse h meta = none)
    (hconf : hasVersion st (createAggregated M h req).id h.nextVersion = true) :
    createCore M st h req meta
      = ⟨ApiResponse.apiError 500 "invalid_request" "session_creation_failed", st,
         (fetchMerchant M req.items req.fulfillment_details).2⟩ := by
  simp [createCore, appendVersion, hrep, hconf]

/-! ## C2: absent or empty idempotency keys -/

theorem freshUuid_inj {m n : Nat} (h : freshUuid m = freshUuid n) : m = n := by
  have hd := congrArg String.data h
  simp only [freshUuid] at hd
  have hl := congrArg List.length hd
  simp at hl
  omega

theorem freshUuid_ne_empty (n : Nat) : freshUuid n ≠ "" := by
  intro h
  have hl := congrArg String.length h
  simp [freshUuid, String.length] at hl

theorem lookupIdem_eq_none (st : Store) (k : String) (h : k ∉ idemKeys st) :
    lookupIdem st k = none := by
  unfold lookupIdem
  have hfind : st.idemIndex.find? (fun p => p.1 == k) = none := by
    rw [List.find?_eq_none]
    intro p hp hbe
    exact h (List.mem_map.mpr ⟨p, hp, eq_of_beq hbe⟩)
  rw [hfind]
  rfl

theorem hasVersion_false_of_fresh (st : Store) (sid : String) (v : Nat)
    (h : sid ∉ histSessionIds st) : hasVersion st sid v = false := by
  unfold hasVersion
  rw [List.any_eq_false]
  intro it hit hbe
  rw [Bool.and_eq_true] at hbe
  exact h (List.mem_map.mpr ⟨it, hit, eq_of_beq hbe.1⟩)

namespace CheckoutSession

theorem updateStatus_id (s : SessionState) : (updateStatus s).id = s.id := by
  unfold updateStatus
  split
  · rfl
  split
  · rfl
  · rfl

theorem setLineItems_id (s : SessionState) (l : List LineItem) :
    (setLineItems s l).id = s.id := by
  unfold setLineItems
  rw [updateStatus_id]

theorem setFulfillmentOptions_id (s : SessionState) (opts : List FulfillmentOption) :
    (setFulfillmentOptions s opts).id = s.id := by
  unfold setFulfillmentOptions
  cases opts with
  | nil =>
    dsimp only
    rw [updateStatus_id]
  | cons o rest =>
    dsimp only
    split <;> rw [updateStatus_id]

theorem setSelectedFulfillmentOptions_id (s : SessionState)
    (sels : List SelectedFulfillmentOption) :
    (setSelectedFulfillmentOptions s sels).id = s.id := by
  unfold setSelectedFulfillmentOptions
  dsimp only
  rw [updateStatus_id]
  split <;> rfl

theorem setBuyer_id (s : SessionState) (b : Buyer) : (setBuyer s b).id = s.id := by
  unfold setBuyer
  rw [updateStatus_id]

theorem setFulfillmentDetails_id (s : SessionState) (d : FulfillmentDetails) :
    (setFulfillmentDetails s d).id = s.id := by
  unfold setFulfillmentDetails
  rw [updateStatus_id]

theorem applyOpt_id {α : Type} (o : Option α) (f : SessionState → α → SessionState)
    (s : SessionState) (hf : ∀ s a, (f s a).id = s.id) :
    (applyOpt o f s).id = s.id := by
  cases o with
  | some a => exact hf s a
  | none => rfl

theorem setMerchantData_id (s : SessionState) (d : MerchantData) :
    (setMerchantData s d).id = s.id := by
  unfold setMerchantData
  rw [applyOpt_id d.messages (fun s ms => setMessages s ms) _ (fun _ _ => rfl),
    setFulfillmentOptions_id, setLineItems_id]

theorem update_id (s : SessionState) (md : Option MerchantData) (b : Option Buyer)
    (fd : Option FulfillmentDetails) (sels : Option (List SelectedFulfillmentOption)) :
    (update s md b fd sels).id = s.id := by
  unfold update
  rw [applyOpt_id _ _ _ setSelectedFulfillmentOptions_id,
    applyOpt_id _ _ _ setFulfillmentDetails_id,
    applyOpt_id _ _ _ setBuyer_id,
    applyOpt_id _ _ _ setMerchantData_id]

end CheckoutSession

theorem latest_of_empty_history (sid : String) :
    SessionHistory.latest ⟨sid, [], [], 0⟩ = sessionNew sid := rfl

theorem createAggregated_id (M : MerchantService) (h : SessionHistory)
    (req : CreateRequest) : (createAggregated M h req).id = h.latest.id := by
  unfold createAggregated
  rw [CheckoutSession.update_id]

/-- One create call with an absent or empty raw idempotency key, on a
store whose pending UUIDs are fresh: the middleware substitutes
freshUuid c for the key (consuming one counter value), the repository
mints session id freshUuid (c+1), persists the key-to-session mapping,
and version 1 is appended; the response is 201 with the new
aggregate. -/
theorem create_nokey (M : MerchantService) (st : Store) (req : CreateRequest)
    (rid : String) (raw : Option String) (hraw : raw = none ∨ raw = some "")
    (hf : FreshOK st) :
    createCheckoutSession M st raw rid req =
      ⟨ApiResponse.session 201
        (createAggregated M ⟨freshUuid (st.nextUuid + 1), [], [], 0⟩ req),
       ⟨st.history ++ [⟨freshUuid (st.nextUuid + 1), 1, freshUuid st.nextUuid,
           EventType.created,
           createAggregated M ⟨freshUuid (st.nextUuid + 1), [], [], 0⟩ req⟩],
        (freshUuid st.nextUuid, freshUuid (st.nextUuid + 1)) :: st.idemIndex,
        st.nextUuid + 2⟩,
       (fetchMerchant M req.items req.fulfillment_details).2
         ++ [Effect.webhook "checkout.session.created"]⟩ := by
  have hk0 : freshUuid st.nextUuid ∉ idemKeys st := (hf st.nextUuid (Nat.le_refl _)).1
  have hs1 : freshUuid (st.nextUuid + 1) ∉ histSessionIds st :=
    (hf (st.nextUuid + 1) (Nat.le_succ _)).2
  have hfind : st.idemIndex.find? (fun p => p.1 == freshUuid st.nextUuid) = none := by
    rw [List.find?_eq_none]
    intro p hp hbe
    exact hk0 (List.mem_map.mpr ⟨p, hp, eq_of_beq hbe⟩)
  have hne := freshUuid_ne_empty st.nextUuid
  have hid : (createAggregated M ⟨freshUuid (st.nextUuid + 1), [], [], 0⟩ req).id
      = freshUuid (st.nextUuid + 1) := by
    rw [createAggregated_id, latest_of_empty_history]
    exact rfl
  have hany : (st.history.any (fun it =>
      it.sessionId == freshUuid (st.nextUuid + 1) && it.version == 1)) = false := by
    rw [List.any_eq_false]
    intro it hit hbe
    rw [Bool.and_eq_true] at hbe
    exact hs1 (List.mem_map.mpr ⟨it, hit, eq_of_beq hbe.1⟩)
  rcases hraw with rfl | rfl <;>
    simp [createCheckoutSession, propagateIdempotencyKey, resolveIdempotency,
      lookupIdem, hfind, createCore, tryGetExistingResponse, hne, pastGet,
      appendVersion, hasVersion, SessionHistory.nextVersion, hid, hany]

/-- A no-key create keeps the freshness guarantee: the two consumed
UUIDs are below the new counter and everything older stays fresh. -/
theorem freshOK_after_create_nokey (M : MerchantService) (st : Store)
    (req : CreateRequest) (rid : String) (raw : Option String)
    (hraw : raw = none ∨ raw = some "") (hf : FreshOK st) :
    FreshOK (createCheckoutSession M st raw rid req).store := by
  rw [create_nokey M st req rid raw hraw hf]
  intro n hn
  simp only at hn
  constructor
  · simp only [idemKeys, List.map_cons, List.mem_cons]
    rintro (h | h)
    · have := freshUuid_inj h
      omega
    · exact (hf n (by omega)).1 h
  · simp only [histSessionIds, List.map_append, List.mem_append, List.map_cons,
      List.mem_singleton]
    rintro (h | h)
    · exact (hf n (by omega)).2 h
    · simp at h
      have := freshUuid_inj h
      omega

/-- C2 counterexample: a create call with an empty idempotency-key
header on an empty store persists an idempotency mapping (from the
middleware-generated key to the minted session id), contradicting the
claim that no mapping is persisted. -/
theorem c2_empty_key_persists_mapping_counterexample :
    (createCheckoutSession dummyMerchant emptyStore (some "") "r1"
        noItemsRequest).store.idemIndex
      = [(freshUuid 0, freshUuid 1)] ∧
    (createCheckoutSession dummyMerchant emptyStore (some "") "r1"
        noItemsRequest).store.idemIndex.length ≠ 0 := by decide

/-- C2 (amended): an absent or empty idempotency key is replaced by a
freshly generated key in the header middleware; the create call then
mints a fresh session id AND persists one idempotency mapping (for the
generated key); two such calls still answer 201 with two distinct
session ids. -/
theorem c2_empty_key_fresh_session_and_mapping (M1 M2 : MerchantService)
    (st : Store) (req1 req2 : CreateRequest) (rid1 rid2 : String)
    (raw1 raw2 : Option String) (h1 : raw1 = none ∨ raw1 = some "")
    (h2 : raw2 = none ∨ raw2 = some "") (hf : FreshOK st) :
    (createCheckoutSession M1 st raw1 rid1 req1).store.idemIndex.length
        = st.idemIndex.length + 1 ∧
    (createCheckoutSession M2 (createCheckoutSession M1 st raw1 rid1 req1).store
        raw2 rid2 req2).store.idemIndex.length = st.idemIndex.length + 2 ∧
    ∃ s1 s2 : SessionState,
      (createCheckoutSession M1 st raw1 rid1 req1).response
          = ApiResponse.session 201 s1 ∧
      (createCheckoutSession M2 (createCheckoutSession M1 st raw1 rid1 req1).store
          raw2 rid2 req2).response = ApiResponse.session 201 s2 ∧
      s1.id ≠ s2.id := by
  have e1 := create_nokey M1 st req1 rid1 raw1 h1 hf
  have hf1 := freshOK_after_create_nokey M1 st req1 rid1 raw1 h1 hf
  have e2 := create_nokey M2 (createCheckoutSession M1 st raw1 rid1 req1).store
    req2 rid2 raw2 h2 hf1
  rw [e1] at e2
  dsimp only at e2
  rw [e1, e2]
  refine ⟨by simp, by simp, ?_⟩
  refine ⟨_, _, rfl, rfl, ?_⟩
  intro heq
  rw [createAggregated_id, createAggregated_id, latest_of_empty_history,
    latest_of_empty_history] at heq
  exact absurd (freshUuid_inj heq) (by omega)

/-! ## C7: version contiguity -/

theorem insertByVersion_perm (x : HistItem) (l : List HistItem) :
    List.Perm (insertByVersion x l) (x :: l) := by
  induction l with
  | nil => exact List.Perm.refl _
  | cons y ys ih =>
    unfold insertByVersion
    split
    · exact List.Perm.refl _
    · exact List.Perm.trans (List.Perm.cons y ih) (List.Perm.swap x y ys)

theorem sortByVersion_perm (l : List HistItem) :
    List.Perm (sortByVersion l) l := by
  induction l with
  | nil => exact List.Perm.refl _
  | cons x xs ih =>
    unfold sortByVersion
    exact List.Perm.trans (insertByVersion_perm x (sortByVersion xs))
      (List.Perm.cons x ih)

theorem foldl_historyStep_versions (l : List HistItem) :
    ∀ h0 : SessionHistory, (l.foldl historyStep h0).versions
      = h0.versions ++ l.map (fun it => (it.version, it.data)) := by
  induction l with
  | nil => intro h0; simp
  | cons x xs ih =>
    intro h0
    rw [List.foldl_cons, ih]
    simp [historyStep]

theorem foldl_historyStep_latest (l : List HistItem) :
    ∀ h0 : SessionHistory, (l.foldl historyStep h0).latestVersion
      = (l.map (fun it => it.version)).foldl
          (fun a v => if a < v then v else a) h0.latestVersion := by
  induction l with
  | nil => intro h0; rfl
  | cons x xs ih =>
    intro h0
    rw [List.foldl_cons, ih]
    rfl

theorem buildHistory_versions (sid : String) (l : List HistItem) :
    (buildHistory sid l).versions = l.map (fun it => (it.version, it.data)) := by
  unfold buildHistory
  rw [foldl_historyStep_versions]
  rfl

theorem buildHistory_latest (sid : String) (l : List HistItem) :
    (buildHistory sid l).latestVersion = natListMax (l.map (fun it => it.version)) := by
  unfold buildHistory natListMax
  rw [foldl_historyStep_latest]

theorem natListMax_perm {l1 l2 : List Nat} (h : List.Perm l1 l2) :
    natListMax l1 = natListMax l2 := by
  unfold natListMax
  suffices haux : ∀ a : Nat, l1.foldl (fun a v => if a < v then v else a) a
      = l2.foldl (fun a v => if a < v then v else a) a from haux 0
  induction h with
  | nil => intro a; rfl
  | cons x _ ih => intro a; rw [List.foldl_cons, List.foldl_cons, ih]
  | swap x y l =>
    intro a
    rw [List.foldl_cons, List.foldl_cons, List.foldl_cons, List.foldl_cons]
    congr 1
    split_ifs <;> omega
  | trans _ _ ih1 ih2 => intro a; rw [ih1, ih2]

theorem natListMax_append_singleton (l : List Nat) (x : Nat) :
    natListMax (l ++ [x]) = if natListMax l < x then x else natListMax l := by
  unfold natListMax
  rw [List.foldl_append]
  rfl

theorem sessionVersionNumbers_eq (st : Store) (sid : String) :
    sessionVersionNumbers st sid
      = (sortByVersion (itemsOf st sid)).map (fun it => it.version) := by
  unfold sessionVersionNumbers getSessionHistory
  rw [buildHistory_versions, List.map_map]
  rfl

theorem getSessionHistory_latest_eq (st : Store) (sid : String) :
    (getSessionHistory st sid).latestVersion
      = natListMax (sessionVersionNumbers st sid) := by
  rw [sessionVersionNumbers_eq]
  unfold getSessionHistory
  rw [buildHistory_latest]

theorem mem_sessionVersionNumbers (st : Store) (sid : String) (v : Nat) :
    v ∈ sessionVersionNumbers st sid ↔ ∃ it ∈ itemsOf st sid, it.version = v := by
  rw [sessionVersionNumbers_eq]
  constructor
  · intro h
    rcases List.mem_map.mp h with ⟨it, hit, hv⟩
    exact ⟨it, (sortByVersion_perm _).mem_iff.mp hit, hv⟩
  · rintro ⟨it, hit, rfl⟩
    exact List.mem_map.mpr ⟨it, (sortByVersion_perm _).mem_iff.mpr hit, rfl⟩

theorem hasVersion_iff (st : Store) (sid : String) (v : Nat) :
    hasVersion st sid v = true ↔ v ∈ sessionVersionNumbers st sid := by
  rw [mem_sessionVersionNumbers]
  unfold hasVersion
  rw [List.any_eq_true]
  constructor
  · rintro ⟨it, hit, hb⟩
    rw [Bool.and_eq_true] at hb
    refine ⟨it, ?_, eq_of_beq hb.2⟩
    unfold itemsOf
    rw [List.mem_filter]
    exact ⟨hit, hb.1⟩
  · rintro ⟨it, hit, rfl⟩
    unfold itemsOf at hit
    rw [List.mem_filter] at hit
    exact ⟨it, hit.1, by rw [Bool.and_eq_true]; exact ⟨hit.2, beq_self_eq_true _⟩⟩

/-- C7: under the contiguity invariant, nextVersion is always the
stored maximum plus one, the conditional write rejects every duplicate
(session id, version) pair, and a successful append at latestVersion+1
preserves the invariant with the maximum advancing by exactly one — so
the version numbers of a session always form the gapless sequence
1,2,3,... with no repeats. -/
theorem c7_versions_contiguous (st : Store) (sid : String) (hc : ContigAt st sid) :
    (getSessionHistory st sid).nextVersion
        = (getSessionHistory st sid).latestVersion + 1 ∧
    (getSessionHistory st sid).latestVersion
        = natListMax (sessionVersionNumbers st sid) ∧
    (∀ it : HistItem, it.sessionId = sid →
      it.version ∈ sessionVersionNumbers st sid → appendVersion st it = none) ∧
    (∀ it : HistItem, it.sessionId = sid →
      it.version = (getSessionHistory st sid).latestVersion + 1 →
      ∃ st', appendVersion st it = some st' ∧ ContigAt st' sid ∧
        (getSessionHistory st' sid).latestVersion
          = (getSessionHistory st sid).latestVersion + 1) := by
  obtain ⟨hnd, hmem⟩ := hc
  refine ⟨rfl, getSessionHistory_latest_eq st sid, ?_, ?_⟩
  · intro it hsid hv
    have ht : hasVersion st it.sessionId it.version = true := by
      rw [hsid]
      exact (hasVersion_iff st sid it.version).mpr hv
    simp [appendVersion, ht]
  · intro it hsid hv
    have hnotmem : it.version ∉ sessionVersionNumbers st sid := by
      rw [hv]
      intro hin
      have := (hmem _).mp hin
      omega
    have hfalse : hasVersion st it.sessionId it.version = false := by
      rw [hsid]
      cases hhv : hasVersion st sid it.version with
      | false => rfl
      | true => exact absurd ((hasVersion_iff st sid it.version).mp hhv) hnotmem
    refine ⟨{ st with history := st.history ++ [it] }, by simp [appendVersion, hfalse], ?_⟩
    have hpitems : itemsOf { st with history := st.history ++ [it] } sid
        = itemsOf st sid ++ [it] := by
      unfold itemsOf
      dsimp only
      rw [List.filter_append]
      simp [hsid]
    have hperm : List.Perm
        (sessionVersionNumbers { st with history := st.history ++ [it] } sid)
        (sessionVersionNumbers st sid ++ [it.version]) := by
      rw [sessionVersionNumbers_eq _ sid, hpitems, sessionVersionNumbers_eq st sid]
      refine List.Perm.trans (List.Perm.map _ (sortByVersion_perm _)) ?_
      rw [List.map_append]
      exact List.Perm.append_right _ (List.Perm.map _ (sortByVersion_perm _)).symm
    have hLmax : natListMax (sessionVersionNumbers st sid)
        = (getSessionHistory st sid).latestVersion :=
      (getSessionHistory_latest_eq st sid).symm
    have hlat : (getSessionHistory { st with history := st.history ++ [it] }
        sid).latestVersion = (getSessionHistory st sid).latestVersion + 1 := by
      rw [getSessionHistory_latest_eq, natListMax_perm hperm,
        natListMax_append_singleton, hv, hLmax]
      simp
    refine ⟨⟨?_, ?_⟩, hlat⟩
    · refine hperm.nodup_iff.mpr ?_
      rw [List.nodup_append]
      refine ⟨hnd, List.nodup_singleton _, ?_⟩
      intro a ha hb
      rw [List.mem_singleton] at hb
      have h1 := (hmem a).mp ha
      rw [hb, hv] at h1
      omega
    · intro v
      rw [hperm.mem_iff, List.mem_append, List.mem_singleton, hlat, hmem v, hv]
      omega

/-- Witness for C7 at a store holding a single version. -/
theorem c7_versions_contiguous_witness :
    ContigAt c4StaleStore "s4" ∧
    (getSessionHistory c4StaleStore "s4").nextVersion
      = (getSessionHistory c4StaleStore "s4").latestVersion + 1 := by
  have hc : ContigAt c4StaleStore "s4" := by
    constructor
    · decide
    · intro v
      have h1 : sessionVersionNumbers c4StaleStore "s4" = [1] := by decide
      have h2 : (getSessionHistory c4StaleStore "s4").latestVersion = 1 := by decide
      rw [h1, h2, List.mem_singleton]
      omega
  exact ⟨hc, (c7_versions_contiguous c4StaleStore "s4" hc).1⟩

/-- Witness for C2 (amended) at the empty store. -/
theorem c2_empty_key_fresh_session_and_mapping_witness :
    FreshOK emptyStore ∧
    ((createCheckoutSession dummyMerchant emptyStore none "r1"
        noItemsRequest).store.idemIndex.length = emptyStore.idemIndex.length + 1 ∧
     (createCheckoutSession dummyMerchant
        (createCheckoutSession dummyMerchant emptyStore none "r1" noItemsRequest).store
        none "r2" noItemsRequest).store.idemIndex.length
          = emptyStore.idemIndex.length + 2 ∧
     ∃ s1 s2 : SessionState,
       (createCheckoutSession dummyMerchant emptyStore none "r1"
           noItemsRequest).response = ApiResponse.session 201 s1 ∧
       (createCheckoutSession dummyMerchant
           (createCheckoutSession dummyMerchant emptyStore none "r1"
             noItemsRequest).store none "r2" noItemsRequest).response
           = ApiResponse.session 201 s2 ∧
       s1.id ≠ s2.id) := by
  have hf : FreshOK emptyStore := fun n _ => ⟨List.not_mem_nil _, List.not_mem_nil _⟩
  exact ⟨hf, c2_empty_key_fresh_session_and_mapping dummyMerchant dummyMerchant
    emptyStore noItemsRequest noItemsRequest "r1" "r2" none none (Or.inl rfl)
    (Or.inl rfl) hf⟩

/-- Witness for C4 (amended) at the concrete conflicting store. -/
theorem c4_conflict_immediate_client_error_witness :
    tryGetExistingResponse (getSessionHistory c4StaleStore "s4") ⟨"k9", "r9"⟩ = none ∧
    hasVersion c4Store
        (createAggregated dummyMerchant (getSessionHistory c4StaleStore "s4")
          noItemsRequest).id
        (getSessionHistory c4StaleStore "s4").nextVersion = true ∧
    createCore dummyMerchant c4Store (getSessionHistory c4StaleStore "s4")
        noItemsRequest ⟨"k9", "r9"⟩
      = ⟨ApiResponse.apiError 500 "invalid_request" "session_creation_failed", c4Store,
         (fetchMerchant dummyMerchant noItemsRequest.items
           noItemsRequest.fulfillment_details).2⟩ :=
  ⟨by decide, by decide,
   c4_conflict_immediate_client_error dummyMerchant c4Store
     (getSessionHistory c4StaleStore "s4") noItemsRequest ⟨"k9", "r9"⟩
     (by decide) (by decide)⟩

end ACP
